import Mathlib

/-!
Shallow embedding of the manual `Mat` layer (`src/manual/core/mat.rs`) of an
OpenCV binding crate: the error model, the format/index/length matchers, the
flat-index-to-coordinate decompositions, matrix constructors, accessors and
the debug dumper, together with theorems settling the specification claims.

Machine integers (`i32`, `u64`, `usize`) are embedded as `Int`/`Nat` with
explicit bounds and saturation where the source relies on them.
-/

/-- Error values: mirrors the crate's `Error { code, message }` result payload. -/
structure Error where
  code : Int
  message : String
deriving DecidableEq

/-- OpenCV error-code constant `StsBadArg` (external collaborator value). -/
def StsBadArg : Int := -5

/-- OpenCV error-code constant `StsUnmatchedFormats`. -/
def StsUnmatchedFormats : Int := -205

/-- OpenCV error-code constant `StsUnmatchedSizes`. -/
def StsUnmatchedSizes : Int := -209

/-- OpenCV error-code constant `StsOutOfRange`. -/
def StsOutOfRange : Int := -211

/-- Modelled from the spec: `core::type_to_string` (generated code, outside
`src/`) renders a runtime element type tag in human-readable form. -/
def type_to_string (t : Int) : String :=
  "CV_" ++ toString t

/-- `match_format` from mat.rs: succeed iff the matrix's runtime tag equals the
requested static type's tag, otherwise a type-mismatch error naming both. -/
def match_format (out_type mat_type : Int) : Except Error Unit :=
  if mat_type = out_type then
    .ok ()
  else
    .error ⟨StsUnmatchedFormats,
      "Mat type is: " ++ type_to_string mat_type ++ ", but requested type is: " ++ type_to_string out_type⟩

/-- The `find` over `idx.iter().zip(size).enumerate()` in `match_indices`:
first pair (with its axis position) whose index is outside `0..size`. -/
def find_violation : List (Int × Int) → Nat → Option (Nat × Int × Int)
  | [], _ => none
  | (v, b) :: rest, k =>
    if 0 ≤ v ∧ v < b then find_violation rest (k + 1) else some (k, v, b)

/-- `match_indices` from mat.rs, over the dereferenced shape descriptor
(`size : List Int`) and the requested indices. -/
def match_indices (size idx : List Int) : Except Error Unit :=
  if size.length ≠ idx.length then
    .error ⟨StsUnmatchedSizes,
      "Amount of Mat dimensions: " ++ toString size.length ++
        " doesn't match the amount of requested indices: " ++ toString idx.length⟩
  else
    match find_violation (idx.zip size) 0 with
    | some (out_idx, out_idx_val, out_size) =>
      .error ⟨StsOutOfRange,
        "Index: " ++ toString out_idx_val ++ " along dimension: " ++ toString out_idx ++
          " out of bounds 0.." ++ toString out_size⟩
    | none => .ok ()

/-- `match_total` from mat.rs: linear index check against the total count. -/
def match_total (total : Nat) (idx : Int) : Except Error Unit :=
  if 0 ≤ idx ∧ idx.toNat < total then
    .ok ()
  else
    .error ⟨StsOutOfRange, "Index: " ++ toString idx ++ " out of bounds: 0.." ++ toString total⟩

/-- `match_is_continuous` from mat.rs, over the matrix's continuity flag. -/
def match_is_continuous (is_continuous : Bool) : Except Error Unit :=
  if is_continuous then
    .ok ()
  else
    .error ⟨StsUnmatchedSizes, "Mat is not continuous, operation is not applicable"⟩

/-- Largest `u64` value; `match_length` accumulates in `u64` with saturation. -/
def U64_MAX : Nat := 18446744073709551615

/-- `u64::saturating_mul`. -/
def sat_mul_u64 (a b : Nat) : Nat := min (a * b) U64_MAX

/-- The accumulation loop of `match_length`: fold the extents into a saturating
`u64` product, failing at the first negative extent (named by its position). -/
def dims_expected : List Int → Nat → Nat → Except Error Nat
  | [], acc, _ => .ok acc
  | size :: rest, acc, i =>
    if size < 0 then
      .error ⟨StsOutOfRange, "Dimension " ++ toString i ++ " must not be negative"⟩
    else
      dims_expected rest (sat_mul_u64 acc size.toNat) (i + 1)

/-- Rust `Debug` rendering of an `&[i32]`, used in the n-d size-mismatch message. -/
def debug_fmt_sizes (l : List Int) : String :=
  "[" ++ String.intercalate ", " (l.map toString) ++ "]"

/-- The size-mismatch message of `match_length`: the `match sizes` block with
its two message shapes (exactly two extents vs. the general case). -/
def mismatch_msg (sizes : List Int) (slice_len expected_len : Nat) : String :=
  match sizes with
  | [rows, cols] =>
    "The length of the slice: " ++ toString slice_len ++ " must be: " ++ toString expected_len ++
      " to match the passed row: " ++ toString rows ++ " and column: " ++ toString cols ++ " counts"
  | _ =>
    "The length of the slice: " ++ toString slice_len ++ " must be: " ++ toString expected_len ++
      " to match the passed dimensions: " ++ debug_fmt_sizes sizes

/-- `match_length` from mat.rs: expected count is the saturating `u64` product
of the extents, multiplied by `size_mul` only when `size_mul > 1`; mismatch
with the supplied length is a size-mismatch error (two message shapes). -/
def match_length (sizes : List Int) (slice_len : Nat) (size_mul : Nat) : Except Error Unit :=
  match dims_expected sizes 1 0 with
  | .error e => .error e
  | .ok prod =>
    let expected_len := if 1 < size_mul then sat_mul_u64 prod size_mul else prod
    if expected_len ≠ slice_len then
      .error ⟨StsUnmatchedSizes, mismatch_msg sizes slice_len expected_len⟩
    else
      .ok ()

/-- The expected element count as the spec words it for `match_length`: the
product of the extents, saturating in `u64`. -/
def sat_prod_spec (sizes : List Int) : Nat :=
  sizes.foldl (fun acc s => sat_mul_u64 acc s.toNat) 1

/-- `idx_to_row_col` from mat.rs (the decomposition used by the mutable
unchecked accessor `at_unchecked_mut`), as a function of the matrix's
continuity flag, width, height and the flat index.  `Int.tdiv` is Rust's
truncating `i32` division. -/
def idx_to_row_col (is_continuous : Bool) (width height : Int) (i0 : Int) : Int × Int :=
  if is_continuous then
    (0, i0)
  else if width = 1 then
    (0, i0)
  else if height = 1 then
    (i0, 0)
  else
    let i := Int.tdiv i0 height
    (i, i0 - i * height)

/-- The inline decomposition inside `MatTraitConstManual::at_unchecked` (the
const unchecked accessor path). -/
def at_unchecked_decomp (is_continuous : Bool) (width height : Int) (i0 : Int) : Int × Int :=
  if is_continuous ∨ width = 1 then
    (0, i0)
  else if height = 1 then
    (i0, 0)
  else
    let i := Int.tdiv i0 height
    (i, i0 - i * height)

/-- `row_count_i32` from mat.rs: `i32::try_from(row_count)`. -/
def row_count_i32 (row_count : Nat) : Except Error Int :=
  if row_count ≤ 2147483647 then
    .ok (row_count : Int)
  else
    .error ⟨StsBadArg, "Row count: " ++ toString row_count ++ " is too high"⟩

/-- `col_count_i32` from mat.rs: `i32::try_from(col_count)`. -/
def col_count_i32 (col_count : Nat) : Except Error Int :=
  if col_count ≤ 2147483647 then
    .ok (col_count : Int)
  else
    .error ⟨StsBadArg, "Column count: " ++ toString col_count ++ " is too high"⟩

/-- Modelled from the spec: `i32::try_from` on a `usize` length (used by
`Mat::from_slice`); overflow is the value-too-large-for-index-type error kind. -/
def i32_try_from (n : Nat) : Except Error Int :=
  if n ≤ 2147483647 then
    .ok (n : Int)
  else
    .error ⟨StsOutOfRange, "out of range integral type conversion attempted"⟩

/-- A borrowed-view matrix (`BoxedRef<Mat>` over an external slice): shape
plus the referenced data. -/
structure MatView (α : Type) where
  rows : Int
  cols : Int
  data : List α

/-- Modelled from the spec: the generated raw constructor
(`new_rows_cols_with_data_unsafe_def`, outside `src/`) builds a borrowed-view
matrix over the slice with the given shape. -/
def new_rows_cols_with_data_raw (rows cols : Int) (data : List α) : Except Error (MatView α) :=
  .ok ⟨rows, cols, data⟩

/-- `Mat::new_rows_cols_with_data` from mat.rs: length check, then the raw
view constructor. -/
def new_rows_cols_with_data (rows cols : Int) (data : List α) : Except Error (MatView α) :=
  match match_length [rows, cols] data.length 1 with
  | .error e => .error e
  | .ok () => new_rows_cols_with_data_raw rows cols data

/-- `Mat::from_slice` from mat.rs: a 1 × len view of the slice. -/
def from_slice (s : List α) : Except Error (MatView α) :=
  match i32_try_from s.length with
  | .error e => .error e
  | .ok cols => new_rows_cols_with_data 1 cols s

/-- An owned matrix handle: shape, continuity flag and flat row-major data. -/
structure MatOwned (α : Type) where
  rows : Int
  cols : Int
  is_continuous : Bool
  data : List α

/-- Modelled from the spec: the generated `Mat::new_rows_cols` (outside
`src/`) allocates owned storage for `rows × cols` elements of the requested
type; freshly allocated storage is continuous. -/
def new_rows_cols (rows cols : Int) (uninit : α) : MatOwned α :=
  ⟨rows, cols, true, List.replicate (rows.toNat * cols.toNat) uninit⟩

/-- The write performed by `at_unchecked_mut`: decompose the flat index with
`idx_to_row_col`, then store through `ptr_2d_mut`; on a continuous matrix
`ptr_2d` addresses element `row * cols + col`. -/
def at_unchecked_mut_write (m : MatOwned α) (i0 : Int) (x : α) : MatOwned α :=
  let rc := idx_to_row_col m.is_continuous m.cols m.rows i0
  { m with data := m.data.set (rc.1 * m.cols + rc.2).toNat x }

/-- `Mat::from_exact_iter` from mat.rs: allocate a `len × 1` matrix, then
write each iterator element at its flat index. -/
def from_exact_iter (uninit : α) (s : List α) : Except Error (MatOwned α) :=
  match row_count_i32 s.length with
  | .error e => .error e
  | .ok rows =>
    .ok (s.enum.foldl (fun m p => at_unchecked_mut_write m (p.1 : Int) p.2) (new_rows_cols rows 1 uninit))

/-- An owned 2-dimensional matrix for the nested-rows constructor: type tag,
shape and per-row data. -/
structure Mat2d (α : Type) where
  typ : Int
  rows : Int
  cols : Int
  data : List (List α)

/-- Modelled from the spec: the generated `Mat::new_rows_cols_with_default`
(outside `src/`) allocates an owned `rows × cols` matrix of the given type
with every element set to the default scalar. -/
def new_rows_cols_with_default (rows cols typ : Int) (d : α) : Except Error (Mat2d α) :=
  .ok ⟨typ, rows, cols, List.replicate rows.toNat (List.replicate cols.toNat d)⟩

/-- The target row obtained by `at_row_mut` inside `from_slice_2d`: format
check, index check on `[row, 0]`, then the row slice (of length `width`)
returned by the unchecked row accessor. -/
def at_row_mut_slice (out_type : Int) (m : Mat2d α) (row : Int) : Except Error (List α) :=
  match match_format out_type m.typ with
  | .error e => .error e
  | .ok () =>
    match match_indices [m.rows, m.cols] [row, 0] with
    | .error e => .error e
    | .ok () => .ok (m.data.getD row.toNat [])

/-- `trg.copy_from_slice(src)` on the row returned by `at_row_mut`. -/
def set_row (m : Mat2d α) (row : Int) (src : List α) : Mat2d α :=
  { m with data := m.data.set row.toNat src }

/-- The row-copy loop of `Mat::from_slice_2d`: for each input row, fetch the
target row, fail if the lengths differ (naming the row index), else copy. -/
def from_slice_2d_loop (out_type : Int) : Mat2d α → List (List α) → Nat → Except Error (Mat2d α)
  | m, [], _ => .ok m
  | m, src :: rest, row_n =>
    match at_row_mut_slice out_type m (row_n : Int) with
    | .error e => .error e
    | .ok trg =>
      if trg.length ≠ src.length then
        .error ⟨StsUnmatchedSizes,
          "Unexpected number of items: " ++ toString src.length ++ " in a row index: " ++
            toString row_n ++ ", expected: " ++ toString trg.length⟩
      else
        from_slice_2d_loop out_type (set_row m (row_n : Int) src) rest (row_n + 1)

/-- `Mat::from_slice_2d` from mat.rs: column count from the first row (0 when
the outer sequence is empty), row count taken only when the column count is
positive, allocation with a default fill, then the guarded row-copy loop. -/
def from_slice_2d (out_type : Int) (d : α) (s : List (List α)) : Except Error (Mat2d α) :=
  match (match s.head? with
         | some first_row => col_count_i32 first_row.length
         | none => .ok 0) with
  | .error e => .error e
  | .ok col_count =>
    match (if 0 < col_count then row_count_i32 s.length else .ok 0) with
    | .error e => .error e
    | .ok row_count =>
      match new_rows_cols_with_default row_count col_count out_type d with
      | .error e => .error e
      | .ok out =>
        if 0 < row_count ∧ 0 < col_count then
          from_slice_2d_loop out_type out s 0
        else
          .ok out

/-- The geometry collaborator's rectangle: position and extents. -/
structure Rect where
  x : Int
  y : Int
  width : Int
  height : Int
deriving DecidableEq

/-- Modelled from the spec: the geometry collaborator's `Rect::empty`. -/
def Rect.empty (r : Rect) : Bool :=
  decide (r.width ≤ 0) || decide (r.height ≤ 0)

/-- Modelled from the spec: the geometry collaborator's rectangle
intersection `roi1 & roi2`: intersection of the half-open integer boxes,
degenerate results normalized to the zero rectangle. -/
def rect_and (a b : Rect) : Rect :=
  let x1 := max a.x b.x
  let y1 := max a.y b.y
  let w := min (a.x + a.width) (b.x + b.width) - x1
  let h := min (a.y + a.height) (b.y + b.height) - y1
  if w ≤ 0 ∨ h ≤ 0 then ⟨0, 0, 0, 0⟩ else ⟨x1, y1, w, h⟩

/-- Membership of an integer point in the half-open box of a rectangle; the
geometric intersection of two rectangles is empty iff no point satisfies both. -/
def Rect.contains_pt (r : Rect) (px py : Int) : Prop :=
  r.x ≤ px ∧ px < r.x + r.width ∧ r.y ≤ py ∧ py < r.y + r.height

/-- An opaque handle to a parent matrix being split into regions. -/
structure MatHandle where
  id : Nat
deriving DecidableEq

/-- Modelled from the spec: the generated `Mat::roi_mut` (outside `src/`)
yields a mutable view of the given rectangular region of the parent matrix. -/
structure RoiView where
  parent : MatHandle
  region : Rect
deriving DecidableEq

/-- Modelled from the spec: `Mat::roi_mut`, producing the region view. -/
def roi_mut (m : MatHandle) (roi : Rect) : Except Error RoiView :=
  .ok ⟨m, roi⟩

/-- `Mat::roi_2_mut` from mat.rs: two mutable region views, gated on the
emptiness of the rectangle intersection. -/
def roi_2_mut (m : MatHandle) (roi1 roi2 : Rect) : Except Error (RoiView × RoiView) :=
  if (rect_and roi1 roi2).empty then
    match roi_mut m roi1 with
    | .error e => .error e
    | .ok out1 =>
      match roi_mut m roi2 with
      | .error e => .error e
      | .ok out2 => .ok (out1, out2)
  else
    .error ⟨StsBadArg, "ROIs must not intersect"⟩

/-- The matrix state consulted by `data_bytes`: continuity flag, data-pointer
nullness, total element count, element byte size, and the byte at each offset
of the underlying storage. -/
structure MatDesc where
  is_continuous : Bool
  data_null : Bool
  total : Nat
  elem_size : Nat
  mem : Nat → Nat

/-- `MatTraitConstManual::data_bytes` from mat.rs: continuity check, then the
byte slice `from_raw_parts(data, total * elem_size)` (empty when the data
pointer is null). -/
def data_bytes (m : MatDesc) : Except Error (List Nat) :=
  match match_is_continuous m.is_continuous with
  | .error e => .error e
  | .ok () =>
    .ok (if m.data_null then [] else (List.range (m.total * m.elem_size)).map m.mem)

/-- A sample continuous matrix state with non-null data, 3 elements of 2
bytes each, and identity storage contents. -/
def mat_desc_ex : MatDesc :=
  ⟨true, false, 3, 2, fun i => i⟩

/-- `MAX_DUMP_SIZE` from the `MatDataDumper` debug formatter. -/
def MAX_DUMP_SIZE : Nat := 1000

/-- The `fmt` body of `MatDataDumper`: render `get_data_dump()` (its failure
degraded to a formatter error) when the total element count is within the
threshold, else a placeholder naming the threshold. -/
def mat_data_dumper_fmt (total : Nat) (get_data_dump : Except Error String) : Except Unit String :=
  if total ≤ MAX_DUMP_SIZE then
    match get_data_dump with
    | .error _ => .error ()
    | .ok s => .ok s
  else
    .ok ("<element count is higher than threshold: " ++ toString MAX_DUMP_SIZE ++ ">")

/-- The underlying element cursor (`MatConstIterator`, external collaborator):
only its runtime type tag matters for typed-iterator construction. -/
structure MatConstIterator where
  typ : Int
deriving DecidableEq

/-- The typed const position iterator. -/
structure MatIter where
  iter : Option MatConstIterator
deriving DecidableEq

/-- `MatIter::new` from mat.rs: format check against the cursor's tag, then
wrap the cursor. -/
def MatIter.new (out_type : Int) (iter : MatConstIterator) : Except Error MatIter :=
  match match_format out_type iter.typ with
  | .error e => .error e
  | .ok () => .ok ⟨some iter⟩

/-- The typed mutable position iterator. -/
structure MatIterMut where
  iter : Option MatConstIterator
deriving DecidableEq

/-- `MatIterMut::new` from mat.rs: format check against the cursor's tag,
then wrap the cursor. -/
def MatIterMut.new (out_type : Int) (iter : MatConstIterator) : Except Error MatIterMut :=
  match match_format out_type iter.typ with
  | .error e => .error e
  | .ok () => .ok ⟨some iter⟩

/-- The two flat-index decompositions agree on every state: their checks are
ordered differently but select the same branch. -/
theorem idx_decomp_agree (c : Bool) (w h i0 : Int) :
    idx_to_row_col c w h i0 = at_unchecked_decomp c w h i0 := by
  cases c with
  | true => simp [idx_to_row_col, at_unchecked_decomp]
  | false =>
    by_cases hw : w = 1 <;> by_cases hh : h = 1 <;>
      simp [idx_to_row_col, at_unchecked_decomp, hw, hh]

/-- C1 (counterexample to the claim as stated): there is no matrix state
(continuity flag, width, height) and flat index on which the mutable-path
decomposition (`idx_to_row_col`) and the const-path decomposition
(`at_unchecked`) disagree. -/
theorem c1_counterexample :
    ¬ ∃ (c : Bool) (w h i0 : Int), idx_to_row_col c w h i0 ≠ at_unchecked_decomp c w h i0 := by
  rintro ⟨c, w, h, i0, hne⟩
  exact hne (idx_decomp_agree c w h i0)

/-- C1 (amended): the flat-index-to-(row,col) translation of the mutable
unchecked accessor (via `idx_to_row_col`) and that of the const unchecked
accessor (`at_unchecked`) order their continuity/width/height checks
differently but produce the same (row, col) pair for every matrix state and
flat index. -/
theorem c1_amended (is_continuous : Bool) (width height i0 : Int) :
    idx_to_row_col is_continuous width height i0 =
      at_unchecked_decomp is_continuous width height i0 :=
  idx_decomp_agree is_continuous width height i0

/-- C8 (counterexample to the claim as stated): at a total element count equal
to the dump threshold (1000) the contents are still rendered, although the
count is not strictly below the threshold. -/
theorem c8_counterexample :
    mat_data_dumper_fmt 1000 (.ok "contents") = .ok "contents" ∧ ¬ (1000 < MAX_DUMP_SIZE) := by
  constructor
  · rfl
  · decide

/-- C8 (amended): the debug rendering of contents is produced exactly when the
total element count is at most the fixed dump threshold; above the threshold a
placeholder naming the threshold is emitted instead. -/
theorem c8_amended (total : Nat) (dump : Except Error String) :
    (total ≤ MAX_DUMP_SIZE →
      mat_data_dumper_fmt total dump =
        match dump with
        | .error _ => .error ()
        | .ok s => .ok s) ∧
    (MAX_DUMP_SIZE < total →
      mat_data_dumper_fmt total dump =
        .ok ("<element count is higher than threshold: " ++ toString MAX_DUMP_SIZE ++ ">")) := by
  constructor
  · intro hle
    simp [mat_data_dumper_fmt, hle]
  · intro hlt
    simp [mat_data_dumper_fmt, Nat.not_le.mpr hlt]

/-- Witness for C8 at a total just above the threshold. -/
theorem c8_witness :
    mat_data_dumper_fmt 1001 (.ok "contents") =
      .ok ("<element count is higher than threshold: " ++ toString MAX_DUMP_SIZE ++ ">") :=
  (c8_amended 1001 (.ok "contents")).2 (by decide)

/-- C7: for a continuous matrix, `data_bytes` succeeds with a byte slice of
length `total * elem_size` (empty when the data pointer is null); for a
non-continuous matrix it fails with the not-continuous error. -/
theorem c7_data_bytes (m : MatDesc) :
    (m.is_continuous = true →
      ∃ bs, data_bytes m = .ok bs ∧
        bs.length = if m.data_null then 0 else m.total * m.elem_size) ∧
    (m.is_continuous = false →
      data_bytes m =
        .error ⟨StsUnmatchedSizes, "Mat is not continuous, operation is not applicable"⟩) := by
  constructor
  · intro hc
    refine ⟨if m.data_null then [] else (List.range (m.total * m.elem_size)).map m.mem, ?_, ?_⟩
    · simp [data_bytes, match_is_continuous, hc]
    · cases hn : m.data_null <;> simp [hn]
  · intro hc
    simp [data_bytes, match_is_continuous, hc]

/-- Witness for C7 on a concrete continuous matrix state. -/
theorem c7_witness :
    mat_desc_ex.is_continuous = true ∧
    ∃ bs, data_bytes mat_desc_ex = .ok bs ∧
      bs.length = if mat_desc_ex.data_null then 0 else mat_desc_ex.total * mat_desc_ex.elem_size :=
  ⟨rfl, (c7_data_bytes mat_desc_ex).1 rfl⟩

/-- C10: constructing a typed position iterator (const or mutable) fails with
the type-mismatch error when the cursor's runtime tag differs from the
requested type's tag, and wraps the cursor only when the tags match. -/
theorem c10_iter_new (out_type : Int) (it : MatConstIterator) :
    (it.typ ≠ out_type →
      MatIter.new out_type it =
        .error ⟨StsUnmatchedFormats,
          "Mat type is: " ++ type_to_string it.typ ++ ", but requested type is: " ++
            type_to_string out_type⟩ ∧
      MatIterMut.new out_type it =
        .error ⟨StsUnmatchedFormats,
          "Mat type is: " ++ type_to_string it.typ ++ ", but requested type is: " ++
            type_to_string out_type⟩) ∧
    (it.typ = out_type →
      MatIter.new out_type it = .ok ⟨some it⟩ ∧ MatIterMut.new out_type it = .ok ⟨some it⟩) := by
  constructor
  · intro hne
    constructor <;> simp [MatIter.new, MatIterMut.new, match_format, hne]
  · intro heq
    constructor <;> simp [MatIter.new, MatIterMut.new, match_format, heq]

/-- Witness for C10 on a concrete mismatching tag pair. -/
theorem c10_witness :
    MatIter.new 5 ⟨6⟩ =
      .error ⟨StsUnmatchedFormats,
        "Mat type is: " ++ type_to_string 6 ++ ", but requested type is: " ++ type_to_string 5⟩ ∧
    MatIterMut.new 5 ⟨6⟩ =
      .error ⟨StsUnmatchedFormats,
        "Mat type is: " ++ type_to_string 6 ++ ", but requested type is: " ++ type_to_string 5⟩ :=
  (c10_iter_new 5 ⟨6⟩).1 (by decide)

/-- C2 (code evaluation at the failing input): when the first inner sequence
is empty, `from_slice_2d` returns an empty matrix without checking the other
rows, even though row 1 has a different length from row 0. -/
theorem c2_code_eval :
    from_slice_2d 4 (0 : Int) [[], [0]] = .ok ⟨4, 0, 0, []⟩ ∧
    ([(0 : Int)].length ≠ ([] : List Int).length) := by
  constructor
  · rfl
  · decide

/-- The emptiness test on the computed rectangle intersection coincides with
geometric disjointness of the two half-open integer boxes. -/
theorem rect_and_empty_iff (a b : Rect) :
    ((rect_and a b).empty = true) ↔
      ¬ ∃ px py : Int, Rect.contains_pt a px py ∧ Rect.contains_pt b px py := by
  have hand : rect_and a b =
      if (min (a.x + a.width) (b.x + b.width) - max a.x b.x ≤ 0 ∨
          min (a.y + a.height) (b.y + b.height) - max a.y b.y ≤ 0) then
        ⟨0, 0, 0, 0⟩
      else
        ⟨max a.x b.x, max a.y b.y,
          min (a.x + a.width) (b.x + b.width) - max a.x b.x,
          min (a.y + a.height) (b.y + b.height) - max a.y b.y⟩ := rfl
  by_cases hcond : (min (a.x + a.width) (b.x + b.width) - max a.x b.x ≤ 0 ∨
      min (a.y + a.height) (b.y + b.height) - max a.y b.y ≤ 0)
  · rw [hand, if_pos hcond]
    have hemp : (Rect.mk 0 0 0 0).empty = true := rfl
    rw [hemp]
    simp only [true_iff]
    rintro ⟨px, py, ⟨hax, haxw, hay, hayh⟩, ⟨hbx, hbxw, hby, hbyh⟩⟩
    have h1 : max a.x b.x ≤ px := max_le hax hbx
    have h2 : px < min (a.x + a.width) (b.x + b.width) := lt_min haxw hbxw
    have h3 : max a.y b.y ≤ py := max_le hay hby
    have h4 : py < min (a.y + a.height) (b.y + b.height) := lt_min hayh hbyh
    rcases hcond with hc | hc <;> omega
  · rw [hand, if_neg hcond]
    push_neg at hcond
    have hemp : (Rect.mk (max a.x b.x) (max a.y b.y)
        (min (a.x + a.width) (b.x + b.width) - max a.x b.x)
        (min (a.y + a.height) (b.y + b.height) - max a.y b.y)).empty = false := by
      simp only [Rect.empty]
      rw [decide_eq_false (by omega), decide_eq_false (by omega)]
      rfl
    rw [hemp]
    constructor
    · intro hfalse
      exact absurd hfalse (by simp)
    · intro hno
      exfalso
      apply hno
      have h1 : a.x ≤ max a.x b.x := le_max_left _ _
      have h2 : b.x ≤ max a.x b.x := le_max_right _ _
      have h3 : min (a.x + a.width) (b.x + b.width) ≤ a.x + a.width := min_le_left _ _
      have h4 : min (a.x + a.width) (b.x + b.width) ≤ b.x + b.width := min_le_right _ _
      have h5 : a.y ≤ max a.y b.y := le_max_left _ _
      have h6 : b.y ≤ max a.y b.y := le_max_right _ _
      have h7 : min (a.y + a.height) (b.y + b.height) ≤ a.y + a.height := min_le_left _ _
      have h8 : min (a.y + a.height) (b.y + b.height) ≤ b.y + b.height := min_le_right _ _
      refine ⟨max a.x b.x, max a.y b.y, ⟨h1, ?_, h5, ?_⟩, ⟨h2, ?_, h6, ?_⟩⟩ <;> omega

/-- C6 (counterexample to the claim as stated): on overlapping regions the
error message reads "ROIs must not intersect", not "regions must not
intersect". -/
theorem c6_counterexample :
    roi_2_mut ⟨0⟩ ⟨0, 0, 2, 2⟩ ⟨1, 1, 2, 2⟩ = .error ⟨StsBadArg, "ROIs must not intersect"⟩ ∧
    "ROIs must not intersect" ≠ "regions must not intersect" := by
  constructor
  · rfl
  · decide

/-- C6 (amended): `roi_2_mut` succeeds with the two region views exactly when
the geometric intersection of the regions is empty; overlapping regions fail
with the regions-intersect error whose message is "ROIs must not intersect". -/
theorem c6_amended (m : MatHandle) (roi1 roi2 : Rect) :
    ((∃ v, roi_2_mut m roi1 roi2 = .ok v) ↔
      ¬ ∃ px py : Int, Rect.contains_pt roi1 px py ∧ Rect.contains_pt roi2 px py) ∧
    ((∃ px py : Int, Rect.contains_pt roi1 px py ∧ Rect.contains_pt roi2 px py) →
      roi_2_mut m roi1 roi2 = .error ⟨StsBadArg, "ROIs must not intersect"⟩) := by
  have hiff := rect_and_empty_iff roi1 roi2
  by_cases hemp : (rect_and roi1 roi2).empty = true
  · have hdisj := hiff.mp hemp
    constructor
    · exact ⟨fun _ => hdisj,
        fun _ => ⟨(⟨m, roi1⟩, ⟨m, roi2⟩), by simp [roi_2_mut, hemp, roi_mut]⟩⟩
    · intro hov
      exact (hdisj hov).elim
  · have herr : roi_2_mut m roi1 roi2 = .error ⟨StsBadArg, "ROIs must not intersect"⟩ := by
      simp only [Bool.not_eq_true] at hemp
      simp [roi_2_mut, hemp]
    have hov : ∃ px py : Int, Rect.contains_pt roi1 px py ∧ Rect.contains_pt roi2 px py := by
      by_contra hno
      exact hemp (hiff.mpr hno)
    constructor
    · constructor
      · rintro ⟨v, hv⟩
        rw [herr] at hv
        simp at hv
      · intro hno
        exact (hno hov).elim
    · intro _
      exact herr

/-- Witness for C6 on concrete disjoint regions. -/
theorem c6_witness :
    ∃ v, roi_2_mut ⟨0⟩ ⟨0, 0, 1, 1⟩ ⟨5, 5, 1, 1⟩ = .ok v :=
  ((c6_amended ⟨0⟩ ⟨0, 0, 1, 1⟩ ⟨5, 5, 1, 1⟩).1).mpr (by
    intro h
    obtain ⟨px, py, hA, hB⟩ := h
    simp [Rect.contains_pt] at hA hB
    omega)

/-- On two nonnegative `i32` extents the length-matcher product loop returns
the exact (non-saturated) product. -/
theorem dims_expected_two (rows cols : Int) (hr : 0 ≤ rows) (hc : 0 ≤ cols)
    (hr2 : rows ≤ 2147483647) (hc2 : cols ≤ 2147483647) :
    dims_expected [rows, cols] 1 0 = .ok (rows.toNat * cols.toNat) := by
  have h1 : ¬ rows < 0 := by omega
  have h2 : ¬ cols < 0 := by omega
  have h5 : rows.toNat ≤ U64_MAX := by
    simp only [U64_MAX]
    omega
  have h6 : rows.toNat * cols.toNat ≤ U64_MAX := by
    have h3 : rows.toNat ≤ 2147483647 := by omega
    have h4 : cols.toNat ≤ 2147483647 := by omega
    have := Nat.mul_le_mul h3 h4
    simp only [U64_MAX]
    omega
  have e1 : sat_mul_u64 1 rows.toNat = rows.toNat := by
    simp only [sat_mul_u64, one_mul]
    exact Nat.min_eq_left h5
  have e2 : sat_mul_u64 rows.toNat cols.toNat = rows.toNat * cols.toNat := by
    simp only [sat_mul_u64]
    exact Nat.min_eq_left h6
  simp only [dims_expected, if_neg h1, if_neg h2, e1, e2]

/-- On matching nonnegative shape and length, `match_length` succeeds. -/
theorem match_length_two_ok (rows cols : Int) (len : Nat) (hr : 0 ≤ rows) (hc : 0 ≤ cols)
    (hr2 : rows ≤ 2147483647) (hc2 : cols ≤ 2147483647)
    (hlen : rows.toNat * cols.toNat = len) :
    match_length [rows, cols] len 1 = .ok () := by
  simp [match_length, dims_expected_two rows cols hr hc hr2 hc2, hlen]

/-- C3 (counterexample to the claim as stated): with a negative row count and
zero columns, `r * c` equals the slice length 0, yet construction fails (with
a negative-dimension error, not success). -/
theorem c3_counterexample :
    new_rows_cols_with_data (-1) 0 ([] : List Int) =
      .error ⟨StsOutOfRange, "Dimension 0 must not be negative"⟩ ∧
    (-1 : Int) * 0 = (([] : List Int).length : Int) := by
  constructor
  · rfl
  · decide

/-- C3 (amended): for nonnegative `i32` shape values, constructing the
borrowed view succeeds exactly when `r * c` equals the slice length, and on a
mismatch it fails with a size-mismatch error; a negative row or column count
always fails with a negative-dimension error naming the first negative
dimension, even when `r * c` equals the length. -/
theorem c3_amended {α : Type} (rows cols : Int) (data : List α) :
    (0 ≤ rows → 0 ≤ cols → rows ≤ 2147483647 → cols ≤ 2147483647 →
      ((∃ m, new_rows_cols_with_data rows cols data = .ok m) ↔
        rows * cols = (data.length : Int)) ∧
      (rows * cols ≠ (data.length : Int) →
        ∃ msg, new_rows_cols_with_data rows cols data = .error ⟨StsUnmatchedSizes, msg⟩)) ∧
    (rows < 0 →
      new_rows_cols_with_data rows cols data =
        .error ⟨StsOutOfRange, "Dimension 0 must not be negative"⟩) ∧
    (0 ≤ rows → cols < 0 →
      new_rows_cols_with_data rows cols data =
        .error ⟨StsOutOfRange, "Dimension 1 must not be negative"⟩) := by
  refine ⟨?_, ?_, ?_⟩
  · intro hr hc hr2 hc2
    have hr' := Int.toNat_of_nonneg hr
    have hc' := Int.toNat_of_nonneg hc
    have hkey : rows * cols = (data.length : Int) ↔ rows.toNat * cols.toNat = data.length := by
      constructor
      · intro h
        have hcast : ((rows.toNat * cols.toNat : Nat) : Int) = ((data.length : Nat) : Int) := by
          push_cast
          rw [hr', hc']
          exact h
        exact_mod_cast hcast
      · intro h
        rw [← hr', ← hc']
        exact_mod_cast h
    by_cases heq : rows.toNat * cols.toNat = data.length
    · constructor
      · refine ⟨fun _ => hkey.mpr heq, fun _ => ⟨⟨rows, cols, data⟩, ?_⟩⟩
        simp [new_rows_cols_with_data, match_length_two_ok rows cols data.length hr hc hr2 hc2 heq,
          new_rows_cols_with_data_raw]
      · intro hne
        exact (hne (hkey.mpr heq)).elim
    · have herr : new_rows_cols_with_data rows cols data =
          .error ⟨StsUnmatchedSizes,
            "The length of the slice: " ++ toString data.length ++ " must be: " ++
              toString (rows.toNat * cols.toNat) ++ " to match the passed row: " ++ toString rows ++
              " and column: " ++ toString cols ++ " counts"⟩ := by
        simp [new_rows_cols_with_data, match_length, mismatch_msg,
          dims_expected_two rows cols hr hc hr2 hc2, heq]
      constructor
      · constructor
        · rintro ⟨m, hm⟩
          rw [herr] at hm
          simp at hm
        · intro h
          exact absurd (hkey.mp h) heq
      · intro _
        exact ⟨_, herr⟩
  · intro hneg
    have hde : dims_expected [rows, cols] 1 0 =
        .error ⟨StsOutOfRange, "Dimension 0 must not be negative"⟩ := by
      simp only [dims_expected, if_pos hneg]
      rfl
    simp only [new_rows_cols_with_data, match_length, hde]
  · intro hr hneg
    have h0 : ¬ rows < 0 := by omega
    have hde : dims_expected [rows, cols] 1 0 =
        .error ⟨StsOutOfRange, "Dimension 1 must not be negative"⟩ := by
      simp only [dims_expected, if_neg h0, if_pos hneg]
      rfl
    simp only [new_rows_cols_with_data, match_length, hde]

/-- Witness for C3: a concrete matching shape succeeds, and a concrete
negative column count fails with the negative-dimension error. -/
theorem c3_witness :
    (∃ m, new_rows_cols_with_data 1 2 ([5, 7] : List Int) = .ok m) ∧
    new_rows_cols_with_data 3 (-2) ([5, 7] : List Int) =
      .error ⟨StsOutOfRange, "Dimension 1 must not be negative"⟩ :=
  ⟨(((c3_amended 1 2 ([5, 7] : List Int)).1 (by decide) (by decide) (by decide)
      (by decide)).1).mpr (by decide),
    (c3_amended 3 (-2) ([5, 7] : List Int)).2.2 (by decide) (by decide)⟩

/-- The per-element write of `from_exact_iter` never changes the shape
fields, hence neither does the whole write loop. -/
theorem fold_write_shape {α : Type} (l : List (Nat × α)) :
    ∀ m : MatOwned α,
      (l.foldl (fun m p => at_unchecked_mut_write m (p.1 : Int) p.2) m).rows = m.rows ∧
      (l.foldl (fun m p => at_unchecked_mut_write m (p.1 : Int) p.2) m).cols = m.cols := by
  induction l with
  | nil => intro m; exact ⟨rfl, rfl⟩
  | cons p rest ih =>
    intro m
    exact ih (at_unchecked_mut_write m (p.1 : Int) p.2)

/-- C9: an iterator whose length fits the signed 32-bit row range yields a
column vector (`len × 1`) through `from_exact_iter`, while `from_slice`
yields a row vector (`1 × len`). -/
theorem c9_vector_shapes {α : Type} (uninit : α) (s : List α)
    (hlen : s.length ≤ 2147483647) :
    (∃ m, from_exact_iter uninit s = .ok m ∧ m.rows = (s.length : Int) ∧ m.cols = 1) ∧
    (∃ v, from_slice s = .ok v ∧ v.rows = 1 ∧ v.cols = (s.length : Int)) := by
  constructor
  · have h1 : from_exact_iter uninit s =
        .ok (s.enum.foldl (fun m p => at_unchecked_mut_write m (p.1 : Int) p.2)
          (new_rows_cols (s.length : Int) 1 uninit)) := by
      simp [from_exact_iter, row_count_i32, hlen]
    refine ⟨_, h1, ?_, ?_⟩
    · exact (fold_write_shape s.enum _).1
    · exact (fold_write_shape s.enum _).2
  · have h2 : match_length [1, (s.length : Int)] s.length 1 = .ok () := by
      refine match_length_two_ok 1 (s.length : Int) s.length (by decide)
        (Int.natCast_nonneg _) (by decide) (by exact_mod_cast hlen) ?_
      simp
    refine ⟨⟨1, (s.length : Int), s⟩, ?_, rfl, rfl⟩
    simp [from_slice, i32_try_from, hlen, new_rows_cols_with_data, h2,
      new_rows_cols_with_data_raw]

/-- Witness for C9 on a concrete two-element sequence. -/
theorem c9_witness :
    (∃ m, from_exact_iter (0 : Int) [5, 7] = .ok m ∧ m.rows = ((2 : Nat) : Int) ∧ m.cols = 1) ∧
    (∃ v, from_slice ([5, 7] : List Int) = .ok v ∧ v.rows = 1 ∧ v.cols = ((2 : Nat) : Int)) :=
  c9_vector_shapes (0 : Int) [5, 7] (by decide)

/-- `getD` on a zip of two lists is the pair of the `getD`s, within bounds. -/
theorem zip_getD : ∀ (l1 l2 : List Int) (j : Nat), j < l1.length → j < l2.length →
    (l1.zip l2).getD j (0, 0) = (l1.getD j 0, l2.getD j 0)
  | [], _, j, hj, _ => by simp at hj
  | _ :: _, [], j, _, hj2 => by simp at hj2
  | a :: t, b :: t2, 0, _, _ => by simp
  | a :: t, b :: t2, j + 1, hj, hj2 => by
    simp only [List.zip_cons_cons, List.getD_cons_succ]
    exact zip_getD t t2 j (by simpa using hj) (by simpa using hj2)

/-- The violation search returns nothing exactly when every index is within
its axis bound. -/
theorem find_violation_none_iff (l : List (Int × Int)) :
    ∀ k, find_violation l k = none ↔ ∀ p ∈ l, 0 ≤ p.1 ∧ p.1 < p.2 := by
  induction l with
  | nil => intro k; simp [find_violation]
  | cons p rest ih =>
    intro k
    obtain ⟨v, b⟩ := p
    by_cases h : 0 ≤ v ∧ v < b
    · simp only [find_violation, if_pos h]
      rw [ih (k + 1)]
      simp [h]
    · simp only [find_violation, if_neg h]
      constructor
      · intro hc
        exact absurd hc (by simp)
      · intro hall
        exact absurd (hall (v, b) (List.mem_cons_self _ _)) h

/-- The violation search reports the first out-of-bounds position, offset by
the starting counter. -/
theorem find_violation_first (l : List (Int × Int)) :
    ∀ (k c : Nat), k < l.length →
      (∀ j, j < k → 0 ≤ (l.getD j (0, 0)).1 ∧ (l.getD j (0, 0)).1 < (l.getD j (0, 0)).2) →
      ¬ (0 ≤ (l.getD k (0, 0)).1 ∧ (l.getD k (0, 0)).1 < (l.getD k (0, 0)).2) →
      find_violation l c = some (c + k, (l.getD k (0, 0)).1, (l.getD k (0, 0)).2) := by
  induction l with
  | nil => intro k c hk _ _; simp at hk
  | cons p rest ih =>
    intro k c hk hall hviol
    obtain ⟨v, b⟩ := p
    cases k with
    | zero =>
      simp only [List.getD_cons_zero] at hviol ⊢
      simp only [find_violation, if_neg hviol, Nat.add_zero]
    | succ k =>
      have h0 : 0 ≤ v ∧ v < b := by
        have := hall 0 (Nat.succ_pos k)
        simpa using this
      simp only [find_violation, if_pos h0, List.getD_cons_succ]
      have hk' : k < rest.length := by simpa using hk
      have hall' : ∀ j, j < k →
          0 ≤ (rest.getD j (0, 0)).1 ∧ (rest.getD j (0, 0)).1 < (rest.getD j (0, 0)).2 := by
        intro j hj
        have := hall (j + 1) (by omega)
        simpa using this
      have hviol' : ¬ (0 ≤ (rest.getD k (0, 0)).1 ∧
          (rest.getD k (0, 0)).1 < (rest.getD k (0, 0)).2) := by
        simpa using hviol
      rw [ih k (c + 1) hk' hall' hviol']
      have heq : c + 1 + k = c + (k + 1) := by omega
      rw [heq]

/-- C4: `match_indices` fails with the dimension-count-mismatch error when the
index list's length differs from the shape descriptor's; otherwise it succeeds
exactly when every index is within its axis extent, and on the first violating
axis (in axis order) it fails naming that axis, the index value and the bound. -/
theorem c4_match_indices (size idx : List Int) :
    (size.length ≠ idx.length →
      match_indices size idx =
        .error ⟨StsUnmatchedSizes,
          "Amount of Mat dimensions: " ++ toString size.length ++
            " doesn't match the amount of requested indices: " ++ toString idx.length⟩) ∧
    (size.length = idx.length →
      ((match_indices size idx = .ok ()) ↔ ∀ p ∈ idx.zip size, 0 ≤ p.1 ∧ p.1 < p.2) ∧
      (∀ k, k < idx.length →
        (∀ j, j < k → 0 ≤ idx.getD j 0 ∧ idx.getD j 0 < size.getD j 0) →
        ¬ (0 ≤ idx.getD k 0 ∧ idx.getD k 0 < size.getD k 0) →
        match_indices size idx =
          .error ⟨StsOutOfRange,
            "Index: " ++ toString (idx.getD k 0) ++ " along dimension: " ++ toString k ++
              " out of bounds 0.." ++ toString (size.getD k 0)⟩)) := by
  constructor
  · intro hne
    simp only [match_indices, if_pos hne]
  · intro heq
    have hlen_not : ¬ size.length ≠ idx.length := fun h => h heq
    constructor
    · simp only [match_indices, if_neg hlen_not]
      cases hfv : find_violation (idx.zip size) 0 with
      | none =>
        exact iff_of_true rfl ((find_violation_none_iff _ 0).mp hfv)
      | some trip =>
        obtain ⟨k, v, b⟩ := trip
        constructor
        · intro h
          exact absurd h (by simp)
        · intro hall
          have hnone := (find_violation_none_iff (idx.zip size) 0).mpr hall
          rw [hfv] at hnone
          exact absurd hnone (by simp)
    · intro k hk hprev hviol
      have hk2 : k < size.length := by omega
      have hzk := zip_getD idx size k hk hk2
      have hfv := find_violation_first (idx.zip size) k 0
        (by rw [List.length_zip]; omega)
        (by
          intro j hj
          rw [zip_getD idx size j (by omega) (by omega)]
          exact hprev j hj)
        (by
          rw [hzk]
          exact hviol)
      rw [hzk] at hfv
      simp only [Nat.zero_add] at hfv
      simp only [match_indices, if_neg hlen_not, hfv]

/-- Witness for C4 on a concrete out-of-range index. -/
theorem c4_witness :
    match_indices [2, 3] [1, 5] =
      .error ⟨StsOutOfRange, "Index: 5 along dimension: 1 out of bounds 0..3"⟩ := by
  have h := ((c4_match_indices [2, 3] [1, 5]).2 rfl).2 1 (by decide) (by decide) (by decide)
  exact h

/-- On an all-nonnegative extent list the length-matcher loop returns the
saturating fold of the extents into the accumulator. -/
theorem dims_expected_nonneg (l : List Int) :
    ∀ acc i, (∀ s ∈ l, 0 ≤ s) →
      dims_expected l acc i = .ok (l.foldl (fun acc s => sat_mul_u64 acc s.toNat) acc) := by
  induction l with
  | nil => intro acc i _; rfl
  | cons s rest ih =>
    intro acc i hall
    have hs : ¬ s < 0 := by
      have := hall s (List.mem_cons_self _ _)
      omega
    simp only [dims_expected, if_neg hs, List.foldl_cons]
    exact ih _ _ (fun x hx => hall x (List.mem_cons_of_mem _ hx))

/-- The saturating fold never exceeds the `u64` range. -/
theorem foldl_sat_le (l : List Int) :
    ∀ acc, acc ≤ U64_MAX → l.foldl (fun acc s => sat_mul_u64 acc s.toNat) acc ≤ U64_MAX := by
  induction l with
  | nil => intro acc h; exact h
  | cons s rest ih =>
    intro acc _
    simp only [List.foldl_cons]
    exact ih _ (Nat.min_le_right _ _)

/-- The length-matcher loop names the first negative extent, offset by the
starting position. -/
theorem dims_expected_first_neg (l : List Int) :
    ∀ (acc i0 k : Nat), k < l.length → (∀ j, j < k → 0 ≤ l.getD j 0) → l.getD k 0 < 0 →
      dims_expected l acc i0 =
        .error ⟨StsOutOfRange, "Dimension " ++ toString (i0 + k) ++ " must not be negative"⟩ := by
  induction l with
  | nil => intro acc i0 k hk _ _; simp at hk
  | cons s rest ih =>
    intro acc i0 k hk hall hneg
    cases k with
    | zero =>
      simp only [List.getD_cons_zero] at hneg
      simp only [dims_expected, if_pos hneg, Nat.add_zero]
    | succ k =>
      have h0 : ¬ s < 0 := by
        have := hall 0 (Nat.succ_pos _)
        simp only [List.getD_cons_zero] at this
        omega
      simp only [dims_expected, if_neg h0, List.getD_cons_succ]
      have hk' : k < rest.length := by simpa using hk
      have hall' : ∀ j, j < k → 0 ≤ rest.getD j 0 := by
        intro j hj
        have := hall (j + 1) (by omega)
        simpa using this
      have hneg' : rest.getD k 0 < 0 := by simpa using hneg
      rw [ih _ (i0 + 1) k hk' hall' hneg']
      have heq : i0 + 1 + k = i0 + (k + 1) := by omega
      rw [heq]

/-- C5 (counterexample to the claim as stated): with multiplier 0 the code
accepts length 1 for extent list [1], although the claimed expected count
(product times multiplier) is 0 ≠ 1. -/
theorem c5_counterexample :
    match_length [1] 1 0 = .ok () ∧ sat_mul_u64 (sat_prod_spec [1]) 0 ≠ 1 := by
  constructor
  · rfl
  · decide

/-- C5 (amended): for a multiplier of at least 1 (the code applies the
multiplier only when it exceeds 1, so a multiplier of 0 is ignored),
`match_length` with all-nonnegative extents succeeds exactly when the
saturating product of the extents times the multiplier equals the supplied
length, failing otherwise with a size-mismatch error; a negative extent makes
it fail immediately with an error naming the first negative position. -/
theorem c5_amended (sizes : List Int) (slice_len size_mul : Nat) (hmul : 1 ≤ size_mul) :
    ((∀ s ∈ sizes, 0 ≤ s) →
      ((match_length sizes slice_len size_mul = .ok ()) ↔
        sat_mul_u64 (sat_prod_spec sizes) size_mul = slice_len) ∧
      (sat_mul_u64 (sat_prod_spec sizes) size_mul ≠ slice_len →
        ∃ msg, match_length sizes slice_len size_mul = .error ⟨StsUnmatchedSizes, msg⟩)) ∧
    (∀ k, k < sizes.length → (∀ j, j < k → 0 ≤ sizes.getD j 0) → sizes.getD k 0 < 0 →
      match_length sizes slice_len size_mul =
        .error ⟨StsOutOfRange, "Dimension " ++ toString k ++ " must not be negative"⟩) := by
  constructor
  · intro hall
    have hde := dims_expected_nonneg sizes 1 0 hall
    have hprod_le : sat_prod_spec sizes ≤ U64_MAX := by
      apply foldl_sat_le
      simp only [U64_MAX]
      omega
    have hexp : (if 1 < size_mul then sat_mul_u64 (sat_prod_spec sizes) size_mul
        else sat_prod_spec sizes) = sat_mul_u64 (sat_prod_spec sizes) size_mul := by
      by_cases h : 1 < size_mul
      · rw [if_pos h]
      · have h1 : size_mul = 1 := by omega
        subst h1
        rw [if_neg h]
        simp only [sat_mul_u64, Nat.mul_one]
        rw [Nat.min_eq_left hprod_le]
    have hde2 : dims_expected sizes 1 0 = .ok (sat_prod_spec sizes) := hde
    constructor
    · simp only [match_length, hde2, hexp]
      by_cases hc : sat_mul_u64 (sat_prod_spec sizes) size_mul = slice_len
      · simp [hc]
      · simp [hc]
    · intro hne
      have herr : match_length sizes slice_len size_mul =
          .error ⟨StsUnmatchedSizes,
            mismatch_msg sizes slice_len (sat_mul_u64 (sat_prod_spec sizes) size_mul)⟩ := by
        simp only [match_length, hde2, hexp]
        rw [if_pos hne]
      exact ⟨_, herr⟩
  · intro k hk hall hneg
    have hde := dims_expected_first_neg sizes 1 0 k hk hall hneg
    simp only [match_length, hde, Nat.zero_add]

/-- Witness for C5 on a concrete matching shape with a multiplier above 1. -/
theorem c5_witness :
    match_length [2, 3] 24 4 = .ok () ∧ sat_mul_u64 (sat_prod_spec [2, 3]) 4 = 24 := by
  have h := ((c5_amended [2, 3] 24 4 (by decide)).1 (by decide)).1
  exact ⟨h.mpr (by decide), by decide⟩
